import Mathlib

/-!
Verification development for the CareerCoach.ai single-page application.

The repository contains two variants of the same application:
* `src/index.tsx`          — embedded below in namespace `IndexApp`;
* `src/unnamed/part_000`   — embedded below in namespace `PartApp`.

JavaScript strings are modelled as `String` / `List Char`, JS numbers as `ℚ`
(exact arithmetic), JSON-shaped AI responses as typed records (the JSON
round-trip is taken as the identity), a thrown exception as `Except.error`,
and the browser `localStorage` slice holding per-identity history as a typed
key-value map `String → Option (List SessionData)`.

Transient view-only flags (`loading`, `loadingMessage`, `showAuthModal`,
`jobInputMode`) are omitted from the application state: every handler
restores them on exit (`finally { setLoading(false) }`) and no claim
mentions them.
-/

/-- Fit-analysis recommendation priority (`'high' | 'medium' | 'low'`). -/
inductive Priority
  | high
  | medium
  | low
deriving DecidableEq

/-- One recommendation record of the fit analysis. -/
structure Recommendation where
  priority : Priority
  suggestion : String
  location : String
deriving DecidableEq

/-- One keyword-density pair `{ term, count }`. -/
structure KeywordDensity where
  term : String
  count : ℚ
deriving DecidableEq

/-- `AnalysisResult` interface (identical in both source files). -/
structure AnalysisResult where
  match_score : ℚ
  missing_keywords : List String
  keyword_density : List KeywordDensity
  formatting_issues : List String
  skills_gap : List String
  recommendations : List Recommendation
deriving DecidableEq

/-- Interview-question kind (`'behavioral' | 'technical' | 'situational'`). -/
inductive QuestionType
  | behavioral
  | technical
  | situational
deriving DecidableEq

/-- `InterviewQuestion` interface (field `type` of the source is `qtype`). -/
structure InterviewQuestion where
  qtype : QuestionType
  question : String
  why_asked : String
deriving DecidableEq

/-- `AnswerFeedback` interface (identical in both source files). -/
structure AnswerFeedback where
  score : ℚ
  strengths : List String
  improvements : List String
  model_answer : String
  specific_feedback : String
deriving DecidableEq

/-- `User` interface: email + display name. -/
structure User where
  email : String
  name : String
deriving DecidableEq

/-- Storage key for a user's history list: `cc_history_` followed by the
email (the template literal of `loadHistory` / `saveHistoryToStorage`). -/
def histKey (email : String) : String := "cc_history_" ++ email

/-- JS `String.prototype.trim` on a JS string modelled as `List Char`:
drop whitespace from the front and from the back. -/
def jsTrim (text : List Char) : List Char :=
  ((text.dropWhile Char.isWhitespace).reverse.dropWhile Char.isWhitespace).reverse

/-- JS `trim` on Lean `String`s, via `jsTrim` on the character list. -/
def jsTrimString (s : String) : String :=
  ⟨jsTrim s.data⟩

/-- The backtick character, U+0060. -/
def backtickChar : Char := Char.ofNat 96

/-- The characters of the ```json opening marker of the source's
`text.startsWith("```json")` test. -/
def fenceJson : List Char :=
  [backtickChar, backtickChar, backtickChar, 'j', 's', 'o', 'n']

/-- The characters of a bare triple-backtick marker. -/
def fence : List Char := [backtickChar, backtickChar, backtickChar]

/-- The characters of a newline followed by a triple-backtick marker. -/
def fenceNl : List Char := '\n' :: fence

/-- The `\n?` part of `replace(/^```json\n?/, "")`: once the marker itself
has been dropped, one leading newline (if present) is dropped as well. -/
def stripLeadingNewline (text : List Char) : List Char :=
  match text with
  | '\n' :: rest => rest
  | _ => text

/-- `replace(/\n?```$/, "")` on an already-trimmed text: the regex is
anchored at the end of the string, matches greedily and leftmost, so a
trailing `"\n` + three backticks is removed as four characters when the
newline is present, otherwise the bare three-backtick suffix is removed,
otherwise nothing happens. -/
def stripTrailingFence (text : List Char) : List Char :=
  if fenceNl.isSuffixOf text then text.take (text.length - 4)
  else if fence.isSuffixOf text then text.take (text.length - 3)
  else text

/-- The branch structure of the code-fence cleanup of `analyzeWithGemini`
(index.tsx lines 109-116, part_000 lines 152-159, identical in both
files), applied after the trim: if the text starts with the ```json
marker strip that marker, an optional newline, and the trailing fence;
else if it starts with a bare ``` marker strip that marker, an optional
newline, and the trailing fence; else leave the text as is. -/
def cleanFencedText (t : List Char) : List Char :=
  if fenceJson.isPrefixOf t then stripTrailingFence (stripLeadingNewline (t.drop 7))
  else if fence.isPrefixOf t then stripTrailingFence (stripLeadingNewline (t.drop 3))
  else t

/-- The full cleanup: `text = text.trim()`, then the fence-marker surgery
of `cleanFencedText` on the trimmed text. -/
def cleanResponseText (text : List Char) : List Char :=
  cleanFencedText (jsTrim text)

/-- JS `Math.round`: round half toward positive infinity, modelled on
exact rationals. -/
def jsRound (q : ℚ) : ℤ := ⌊q + 1/2⌋

/-- Removal of the first element satisfying `p`, if any: the combined
effect of `findIndex` followed by `splice(found, 1)`. Used only to reason
about `IndexApp.upsertAnswer`. -/
def eraseFirstMatch (p : α → Bool) : List α → List α
  | [] => []
  | x :: xs => if p x then xs else x :: eraseFirstMatch p xs

/-- A concrete grading feedback value, for witnesses. -/
def sampleFeedback : AnswerFeedback :=
  { score := 7, strengths := [], improvements := [], model_answer := "",
    specific_feedback := "good" }

/-- A second concrete grading feedback value, for resubmission witnesses. -/
def sampleFeedbackTwo : AnswerFeedback :=
  { score := 9, strengths := [], improvements := [], model_answer := "",
    specific_feedback := "better" }

namespace PartApp

/-- The `Step` union type of `src/unnamed/part_000` line 22 (hyphenated
string values are camel-cased: `'job-desc'` is `jobDesc`, etc.). -/
inductive Step
  | landing
  | upload
  | jobDesc
  | analysis
  | dashboard
  | coverLetter
  | writtenPractice
  | verbalPractice
  | candidateQuestions
  | mockInterview
  | mockAnalysis
  | summary
  | history
deriving DecidableEq

/-- `ResumeVersion` of part_000 (with the optional `isSelected` marker). -/
structure ResumeVersion where
  id : String
  name : String
  content : String
  isSelected : Option Bool
deriving DecidableEq

/-- `CoverLetterVersion` of part_000. -/
structure CoverLetterVersion where
  id : String
  name : String
  content : String
  isSelected : Option Bool
deriving DecidableEq

/-- `CandidateQuestion` of part_000. -/
structure CandidateQuestion where
  question : String
  context : String
deriving DecidableEq

/-- One written-answer record of part_000's `SessionData.writtenAnswers`. -/
structure WrittenAnswer where
  questionIndex : Nat
  answer : String
  feedback : Option AnswerFeedback
deriving DecidableEq

/-- One verbal-answer record of part_000's `SessionData.verbalAnswers`. -/
structure VerbalAnswer where
  questionIndex : Nat
  transcript : String
  feedback : Option AnswerFeedback
deriving DecidableEq

/-- Speaker tag of a mock-interview transcript entry. -/
inductive SpeakerRole
  | ai
  | user
deriving DecidableEq

/-- One mock-interview transcript entry `{ role, text }`. -/
structure TranscriptEntry where
  role : SpeakerRole
  text : String
deriving DecidableEq

/-- `SessionData` interface of part_000 (lines 75-103). -/
structure SessionData where
  id : String
  timestamp : Nat
  resumeText : String
  jobDescription : String
  jobUrl : Option String
  fileName : String
  analysis : Option AnalysisResult
  optimizedResumes : List ResumeVersion
  selectedResumeIndex : Nat
  coverLetters : List CoverLetterVersion
  selectedCoverLetterIndex : Nat
  questions : List InterviewQuestion
  writtenAnswers : List WrittenAnswer
  verbalAnswers : List VerbalAnswer
  candidateQuestions : List CandidateQuestion
  mockInterviewTranscript : List TranscriptEntry
  mockInterviewFeedback : Option String
deriving DecidableEq

/-- The `App` component state of part_000 relevant to the claims:
current step, the back-navigation stack `stepHistory`, the session,
the surfaced error, the loaded history list and the authenticated user. -/
structure AppState where
  currentStep : Step
  stepHistory : List Step
  session : SessionData
  error : Option String
  history : List SessionData
  user : Option User
deriving DecidableEq

/-- `navigateTo` (part_000 lines 697-701): push the current step on the
back-stack and make `step` current (the `window.scrollTo` call is a
view-layer effect outside the modelled state). -/
def navigateTo (step : Step) (s : AppState) : AppState :=
  { s with stepHistory := s.stepHistory ++ [s.currentStep], currentStep := step }

/-- `handleBack` (part_000 lines 703-709): no-op when the stack is empty,
otherwise make `stepHistory[stepHistory.length - 1]` current and drop it
from the stack (`prev.slice(0, -1)`). -/
def handleBack (s : AppState) : AppState :=
  if s.stepHistory.length = 0 then s
  else
    { s with currentStep := s.stepHistory.getLastD s.currentStep,
             stepHistory := s.stepHistory.dropLast }

/-- The initial session value of part_000's `useState` (lines 711-728);
the random UUID and timestamp are fixed to inert values. -/
def initialSession : SessionData :=
  { id := "", timestamp := 0, resumeText := "", jobDescription := "",
    jobUrl := none, fileName := "", analysis := none, optimizedResumes := [],
    selectedResumeIndex := 0, coverLetters := [], selectedCoverLetterIndex := 0,
    questions := [], writtenAnswers := [], verbalAnswers := [],
    candidateQuestions := [], mockInterviewTranscript := [],
    mockInterviewFeedback := none }

/-- The initial app state of part_000. -/
def initialState : AppState :=
  { currentStep := Step.landing, stepHistory := [], session := initialSession,
    error := none, history := [], user := none }

end PartApp

namespace PartApp

/-- Per-identity history storage of part_000, as a typed key-value map
(`localStorage` restricted to the `cc_history_` keys; the JSON round-trip
is the identity). -/
abbrev HistStore := String → Option (List SessionData)

/-- `handleAnalyze` of part_000 (lines 793-815): the outcome of the awaited
`analyzeWithGemini` call is the `aiResult` argument; on success the analysis
is merged and the app navigates to the analysis step, on a thrown error only
the error message "Analysis failed" is surfaced. -/
def handleAnalyze (aiResult : Except String AnalysisResult) (s : AppState) : AppState :=
  match aiResult with
  | .ok result => navigateTo Step.analysis { s with session := { s.session with analysis := some result } }
  | .error _ => { s with error := some "Analysis failed" }

/-- The JSON shape of part_000's question-generation response: an object
with a `questions` array (no `required` clause and no emptiness check in
this variant). -/
structure QuestionsResult where
  questions : List InterviewQuestion
deriving DecidableEq

/-- `handleGenerateQuestions` of part_000 (lines 817-836): merge the
generated questions and navigate to written practice on success; surface
"Failed to generate questions" on a thrown error. -/
def handleGenerateQuestions (aiResult : Except String QuestionsResult) (s : AppState) : AppState :=
  match aiResult with
  | .ok result =>
      navigateTo Step.writtenPractice { s with session := { s.session with questions := result.questions } }
  | .error _ => { s with error := some "Failed to generate questions" }

/-- The written-answer upsert of part_000's `onAnswerSubmit` callback
(lines 922-925): keep every record whose `questionIndex` differs from
`idx`, then append the new record. -/
def upsertWrittenAnswer (writtenAnswers : List WrittenAnswer) (idx : Nat) (ans : String)
    (fb : AnswerFeedback) : List WrittenAnswer :=
  (writtenAnswers.filter fun a => a.questionIndex != idx) ++
    [{ questionIndex := idx, answer := ans, feedback := some fb }]

/-- The written-practice answer submission of part_000 at the `App` level:
`WrittenPracticeSession.handleSubmit` calls `onAnswerSubmit` only when the
grading call succeeded; on a thrown error it only shows an alert, leaving
the session untouched. -/
def onAnswerSubmit (aiResult : Except String AnswerFeedback) (idx : Nat) (ans : String)
    (s : AppState) : AppState :=
  match aiResult with
  | .error _ => s
  | .ok fb =>
      { s with session :=
          { s.session with writtenAnswers := upsertWrittenAnswer s.session.writtenAnswers idx ans fb } }

/-- `loadHistory` of part_000 (lines 739-742): set the in-memory history
from storage when the key is present; note the missing `else` branch — a
missing key leaves the previous in-memory history in place. -/
def loadHistory (email : String) (store : HistStore) (s : AppState) : AppState :=
  match store (histKey email) with
  | some savedHistory => { s with history := savedHistory }
  | none => s

/-- `handleLogin` of part_000 (lines 750-753). -/
def handleLogin (newUser : User) (store : HistStore) (s : AppState) : AppState :=
  loadHistory newUser.email store { s with user := some newUser }

/-- `handleLogout` of part_000 (lines 755-761); the `cc_user_session`
storage key it removes is outside the modelled history store. -/
def handleLogout (s : AppState) : AppState :=
  { s with user := none, history := [], currentStep := Step.landing, stepHistory := [] }

/-- The `disabled` condition of part_000's "Analyze Fit" button (line 886):
`disabled={!session.jobDescription}` — disabled exactly when the job
description is the empty string. -/
def analyzeFitDisabled (s : AppState) : Bool :=
  s.session.jobDescription == ""

end PartApp

namespace IndexApp

/-- The `Step` union type of `src/index.tsx` line 21. -/
inductive Step
  | landing
  | upload
  | jobDesc
  | analysis
  | coverLetter
  | interviewIntro
  | interviewPractice
  | summary
  | history
deriving DecidableEq

/-- `ResumeVersion` of index.tsx (no `isSelected` field in this variant). -/
structure ResumeVersion where
  id : String
  name : String
  content : String
deriving DecidableEq

/-- `CoverLetterVersion` of index.tsx. -/
structure CoverLetterVersion where
  id : String
  name : String
  content : String
deriving DecidableEq

/-- One record of index.tsx's `SessionData.answers`. -/
structure AnswerRecord where
  questionIndex : Nat
  userAnswer : String
  feedback : Option AnswerFeedback
deriving DecidableEq

/-- `SessionData` interface of index.tsx (lines 67-85). -/
structure SessionData where
  id : String
  timestamp : Nat
  resumeText : String
  jobDescription : String
  jobUrl : Option String
  fileName : String
  analysis : Option AnalysisResult
  optimizedResumes : List ResumeVersion
  selectedResumeIndex : Nat
  coverLetters : List CoverLetterVersion
  selectedCoverLetterIndex : Nat
  questions : List InterviewQuestion
  answers : List AnswerRecord
deriving DecidableEq

/-- The `activeTab` state of index.tsx (`'analysis' | 'optimized'`). -/
inductive Tab
  | analysisTab
  | optimized
deriving DecidableEq

/-- The `App` component state of index.tsx relevant to the claims. -/
structure AppState where
  currentStep : Step
  session : SessionData
  error : Option String
  activeTab : Tab
  history : List SessionData
  user : Option User
deriving DecidableEq

/-- Per-identity history storage of index.tsx, as a typed key-value map. -/
abbrev HistStore := String → Option (List SessionData)

/-- `handleAnalyze` of index.tsx (lines 613-679). The guard
`if (!session.jobDescription.trim())` surfaces a validation error and
returns before any AI call; otherwise the awaited call's outcome is the
`aiResult` argument. The returned `Bool` records whether the AI call was
made. On success the analysis is merged and the step becomes `analysis`
(`setError(null)` ran at the start, so the error is cleared); on a thrown
error the message "Failed to analyze resume. Please try again." is
surfaced and nothing else changes. -/
def handleAnalyze (aiResult : Except String AnalysisResult) (s : AppState) : AppState × Bool :=
  if jsTrimString s.session.jobDescription = "" then
    ({ s with error := some "Please enter a job description" }, false)
  else
    match aiResult with
    | .ok result =>
        ({ s with session := { s.session with analysis := some result },
                  currentStep := Step.analysis, error := none }, true)
    | .error _ =>
        ({ s with error := some "Failed to analyze resume. Please try again." }, true)

/-- The JSON shape of the resume-variant generation response: `versions`
may be missing (`none`) since the parsed value is untyped JS. -/
structure ResumesResult where
  versions : Option (List ResumeVersion)
deriving DecidableEq

/-- The JSON shape of the cover-letter generation response of index.tsx as
consumed by `handleGenerateCoverLetters`, which reads `result.versions`
as an array without any presence or emptiness check. -/
structure CoverLettersResult where
  versions : List CoverLetterVersion
deriving DecidableEq

/-- The JSON shape of index.tsx's question-generation response. -/
structure QuestionsResult where
  questions : Option (List InterviewQuestion)
deriving DecidableEq

/-- `handleGenerateOptimizedResumes` of index.tsx (lines 681-749): early
return when no analysis exists; on success, `if (!result.versions ||
result.versions.length === 0) throw` (the thrown "No versions generated"
lands in the same catch as an AI failure), otherwise replace
`optimizedResumes` wholesale, reset `selectedResumeIndex` to 0, and switch
the active tab. -/
def handleGenerateOptimizedResumes (aiResult : Except String ResumesResult) (s : AppState) :
    AppState :=
  if s.session.analysis = none then s
  else
    match aiResult with
    | .error _ => { s with error := some "Failed to generate optimized resumes. Please try again." }
    | .ok result =>
        match result.versions with
        | none => { s with error := some "Failed to generate optimized resumes. Please try again." }
        | some [] => { s with error := some "Failed to generate optimized resumes. Please try again." }
        | some (v :: vs) =>
            { s with session := { s.session with optimizedResumes := v :: vs, selectedResumeIndex := 0 },
                     activeTab := Tab.optimized }

/-- `handleGenerateCoverLetters` of index.tsx (lines 751-814): on success
replace `coverLetters` wholesale with `result.versions` (no emptiness
check in this handler), reset `selectedCoverLetterIndex` to 0 and move to
the cover-letter step; on a thrown error surface "Failed to generate
cover letters.". -/
def handleGenerateCoverLetters (aiResult : Except String CoverLettersResult) (s : AppState) :
    AppState :=
  match aiResult with
  | .error _ => { s with error := some "Failed to generate cover letters." }
  | .ok result =>
      { s with session := { s.session with coverLetters := result.versions,
                                           selectedCoverLetterIndex := 0 },
               currentStep := Step.coverLetter }

/-- `handleGenerateQuestions` of index.tsx (lines 816-877): `if
(!result.questions || result.questions.length === 0) throw`, otherwise
merge the questions and move to the interview-intro step. -/
def handleGenerateQuestions (aiResult : Except String QuestionsResult) (s : AppState) : AppState :=
  match aiResult with
  | .error _ => { s with error := some "Failed to generate interview questions. Please try again." }
  | .ok result =>
      match result.questions with
      | none => { s with error := some "Failed to generate interview questions. Please try again." }
      | some [] => { s with error := some "Failed to generate interview questions. Please try again." }
      | some (q :: qs) =>
          { s with session := { s.session with questions := q :: qs },
                   currentStep := Step.interviewIntro }

/-- The answer upsert of index.tsx's `onAnswerSubmit` callback (lines
1575-1588): copy the array, `findIndex` the record with the same
`questionIndex` (JS returns -1, i.e. here `findIdx` returns the length,
when absent; the `existingIdx > -1` test is the `< length` test), `splice`
it out when found, then `push` the new record. -/
def upsertAnswer (answers : List AnswerRecord) (index : Nat) (answer : String)
    (feedback : AnswerFeedback) : List AnswerRecord :=
  let existingIdx := answers.findIdx fun a => a.questionIndex == index
  let removed := if existingIdx < answers.length then answers.eraseIdx existingIdx else answers
  removed ++ [{ questionIndex := index, userAnswer := answer, feedback := some feedback }]

/-- The interview answer submission of index.tsx at the `App` level:
`InterviewSession.handleSubmit` calls `onAnswerSubmit` only when the
grading call succeeded; a thrown error only shows an alert. -/
def onAnswerSubmit (aiResult : Except String AnswerFeedback) (index : Nat) (answer : String)
    (s : AppState) : AppState :=
  match aiResult with
  | .error _ => s
  | .ok feedback =>
      { s with session :=
          { s.session with answers := upsertAnswer s.session.answers index answer feedback } }

/-- `loadHistory` of index.tsx (lines 531-538): set the in-memory history
from storage, or to the empty list when the key is absent. -/
def loadHistory (email : String) (store : HistStore) (s : AppState) : AppState :=
  match store (histKey email) with
  | some savedHistory => { s with history := savedHistory }
  | none => { s with history := [] }

/-- `handleLogin` of index.tsx (lines 546-557): set the user, load that
user's history, and — only when the current step is `summary` — prepend
the pending session to that user's stored list and persist it. Returns
the new app state together with the (possibly updated) store. -/
def handleLogin (newUser : User) (store : HistStore) (s : AppState) : AppState × HistStore :=
  let s1 := loadHistory newUser.email store { s with user := some newUser }
  if s1.currentStep = Step.summary then
    let parsedHistory := (store (histKey newUser.email)).getD []
    let newHistory := s1.session :: parsedHistory
    ({ s1 with history := newHistory },
     fun k => if k = histKey newUser.email then some newHistory else store k)
  else (s1, store)

/-- `handleLogout` of index.tsx (lines 559-564). -/
def handleLogout (s : AppState) : AppState :=
  { s with user := none, history := [], currentStep := Step.landing }

/-- The "Interview Score" expression of index.tsx, appearing verbatim on
the summary step (lines 1609-1611) and on each history entry (lines
999-1002): `Math.round(answers.reduce((acc, curr) => acc +
(curr.feedback?.score || 0), 0) / Math.max(1, answers.length) * 10)`.
A record with `null` feedback contributes 0 to the sum. -/
def interviewScore (answers : List AnswerRecord) : ℤ :=
  jsRound ((answers.foldl
      (fun acc curr => acc + (match curr.feedback with | some f => f.score | none => 0)) 0)
    / max 1 (answers.length : ℚ) * 10)

/-- The claimed formula for the interview score, written as in the claim:
round of (the sum of the feedback scores of all answer records) divided by
max(1, number of answer records), times 10. -/
def interviewScoreClaim (answers : List AnswerRecord) : ℤ :=
  jsRound ((answers.map (fun a => match a.feedback with | some f => f.score | none => 0)).sum
    / max 1 (answers.length : ℚ) * 10)

/-- The "Save Changes" handler for an edited resume (index.tsx lines
1409-1415), with JS object identity made explicit: `heap` gives the
`content` string of each `ResumeVersion` object by reference (a heap
address, here a `Nat` index), and `sessionResumeRefs` is the previous
session's `optimizedResumes` array of references. The spread
`[...session.optimizedResumes]` copies the array of references only, and
`updatedResumes[session.selectedResumeIndex].content = editingContent`
writes through the shared reference into the heap. Returns the heap after
the write together with the `updatedResumes` array stored into the new
session. -/
def saveResumeChanges (heap : List String) (sessionResumeRefs : List Nat)
    (selectedResumeIndex : Nat) (editingContent : String) : List String × List Nat :=
  let updatedResumes := sessionResumeRefs
  match updatedResumes[selectedResumeIndex]? with
  | some ref => (heap.set ref editingContent, updatedResumes)
  | none => (heap, updatedResumes)

/-- The "Save Changes" handler for an edited cover letter (index.tsx lines
1506-1512), identical in shape to `saveResumeChanges`. -/
def saveCoverLetterChanges (heap : List String) (sessionCoverLetterRefs : List Nat)
    (selectedCoverLetterIndex : Nat) (editingContent : String) : List String × List Nat :=
  let updated := sessionCoverLetterRefs
  match updated[selectedCoverLetterIndex]? with
  | some ref => (heap.set ref editingContent, updated)
  | none => (heap, updated)

/-- The value a session's artifact list denotes: each reference resolved
through the heap to its `content` string. -/
def derefContents (heap : List String) (refs : List Nat) : List String :=
  refs.map fun r => heap.getD r ""

/-- A concrete analysis result, for witnesses. -/
def sampleAnalysis : AnalysisResult :=
  { match_score := 72, missing_keywords := [], keyword_density := [],
    formatting_issues := [], skills_gap := [], recommendations := [] }

/-- A concrete cover-letter version, for witnesses and counterexamples. -/
def sampleCoverLetter : CoverLetterVersion :=
  { id := "cl1", name := "Professional", content := "Dear Hiring Manager" }

/-- A concrete resume version, for witnesses. -/
def sampleResume : ResumeVersion :=
  { id := "v1", name := "Standard Optimized", content := "resume text" }

/-- A concrete session holding one cover letter and a completed analysis. -/
def sampleSession : SessionData :=
  { id := "", timestamp := 0, resumeText := "resume", jobDescription := "job",
    jobUrl := none, fileName := "resume.pdf", analysis := some sampleAnalysis,
    optimizedResumes := [], selectedResumeIndex := 0,
    coverLetters := [sampleCoverLetter], selectedCoverLetterIndex := 0,
    questions := [], answers := [] }

/-- A concrete app state on the analysis step. -/
def sampleState : AppState :=
  { currentStep := Step.analysis, session := sampleSession, error := none,
    activeTab := Tab.analysisTab, history := [], user := none }

/-- A concrete app state on the job-description step with an empty job
description. -/
def emptyJobState : AppState :=
  { currentStep := Step.jobDesc,
    session := { sampleSession with jobDescription := "" },
    error := none, activeTab := Tab.analysisTab, history := [], user := none }

end IndexApp

/-- Claim C1: calling `goBack` immediately after `navigateTo(s)` restores
both the current step and the back-navigation stack to their values before
that `navigateTo`, and calling `goBack` on an empty back-stack is a no-op
(current step and stack unchanged; the handler is total, so no exception). -/
theorem c1_goBack_reverses_navigateTo :
    (∀ (st : PartApp.AppState) (step : PartApp.Step),
      (PartApp.handleBack (PartApp.navigateTo step st)).currentStep = st.currentStep ∧
      (PartApp.handleBack (PartApp.navigateTo step st)).stepHistory = st.stepHistory) ∧
    (∀ st : PartApp.AppState, st.stepHistory = [] → PartApp.handleBack st = st) := by
  constructor
  · intro st step
    simp [PartApp.navigateTo, PartApp.handleBack]
  · intro st h
    simp [PartApp.handleBack, h]

/-- Witness for C1 at the concrete initial state: `goBack` undoes
`navigateTo upload`, and `goBack` on the empty initial stack is a no-op. -/
theorem c1_goBack_witness :
    (PartApp.handleBack (PartApp.navigateTo PartApp.Step.upload PartApp.initialState)).currentStep
        = PartApp.initialState.currentStep ∧
    PartApp.handleBack PartApp.initialState = PartApp.initialState :=
  ⟨(c1_goBack_reverses_navigateTo.1 PartApp.initialState PartApp.Step.upload).1,
   c1_goBack_reverses_navigateTo.2 PartApp.initialState rfl⟩

/-- Claim C2: for every generation task (fit analysis, resume variants,
cover-letter variants, question generation, answer grading) in either
variant, a failed task — the AI call threw, the response was empty (the
client throws "No response from AI", reaching the caller as a thrown
error), or the pipeline's own validation rejected the result — leaves the
Session structurally equal to the pre-call Session and leaves the current
workflow step unchanged. -/
theorem c2_failed_stage_preserves_session :
    (∀ (s : IndexApp.AppState) (msg : String),
      (IndexApp.handleAnalyze (.error msg) s).1.session = s.session ∧
      (IndexApp.handleAnalyze (.error msg) s).1.currentStep = s.currentStep) ∧
    (∀ (s : IndexApp.AppState) (msg : String),
      (IndexApp.handleGenerateOptimizedResumes (.error msg) s).session = s.session ∧
      (IndexApp.handleGenerateOptimizedResumes (.error msg) s).currentStep = s.currentStep) ∧
    (∀ s : IndexApp.AppState,
      (IndexApp.handleGenerateOptimizedResumes (.ok ⟨none⟩) s).session = s.session ∧
      (IndexApp.handleGenerateOptimizedResumes (.ok ⟨none⟩) s).currentStep = s.currentStep) ∧
    (∀ s : IndexApp.AppState,
      (IndexApp.handleGenerateOptimizedResumes (.ok ⟨some []⟩) s).session = s.session ∧
      (IndexApp.handleGenerateOptimizedResumes (.ok ⟨some []⟩) s).currentStep = s.currentStep) ∧
    (∀ (s : IndexApp.AppState) (msg : String),
      (IndexApp.handleGenerateCoverLetters (.error msg) s).session = s.session ∧
      (IndexApp.handleGenerateCoverLetters (.error msg) s).currentStep = s.currentStep) ∧
    (∀ (s : IndexApp.AppState) (msg : String),
      (IndexApp.handleGenerateQuestions (.error msg) s).session = s.session ∧
      (IndexApp.handleGenerateQuestions (.error msg) s).currentStep = s.currentStep) ∧
    (∀ s : IndexApp.AppState,
      (IndexApp.handleGenerateQuestions (.ok ⟨none⟩) s).session = s.session ∧
      (IndexApp.handleGenerateQuestions (.ok ⟨none⟩) s).currentStep = s.currentStep) ∧
    (∀ s : IndexApp.AppState,
      (IndexApp.handleGenerateQuestions (.ok ⟨some []⟩) s).session = s.session ∧
      (IndexApp.handleGenerateQuestions (.ok ⟨some []⟩) s).currentStep = s.currentStep) ∧
    (∀ (s : IndexApp.AppState) (msg : String) (i : Nat) (ans : String),
      (IndexApp.onAnswerSubmit (.error msg) i ans s).session = s.session ∧
      (IndexApp.onAnswerSubmit (.error msg) i ans s).currentStep = s.currentStep) ∧
    (∀ (s : PartApp.AppState) (msg : String),
      (PartApp.handleAnalyze (.error msg) s).session = s.session ∧
      (PartApp.handleAnalyze (.error msg) s).currentStep = s.currentStep) ∧
    (∀ (s : PartApp.AppState) (msg : String),
      (PartApp.handleGenerateQuestions (.error msg) s).session = s.session ∧
      (PartApp.handleGenerateQuestions (.error msg) s).currentStep = s.currentStep) ∧
    (∀ (s : PartApp.AppState) (msg : String) (i : Nat) (ans : String),
      (PartApp.onAnswerSubmit (.error msg) i ans s).session = s.session ∧
      (PartApp.onAnswerSubmit (.error msg) i ans s).currentStep = s.currentStep) := by
  refine ⟨?_, ?_, ?_, ?_, ?_, ?_, ?_, ?_, ?_, ?_, ?_, ?_⟩ <;> intros <;> constructor <;>
    simp only [IndexApp.handleAnalyze, IndexApp.handleGenerateOptimizedResumes,
      IndexApp.handleGenerateCoverLetters, IndexApp.handleGenerateQuestions,
      IndexApp.onAnswerSubmit, PartApp.handleAnalyze, PartApp.handleGenerateQuestions,
      PartApp.onAnswerSubmit] <;>
    first
      | rfl
      | (split <;> rfl)

/-- Counterexample to claim C3 as stated: cover-letter generation is a
list-producing task, yet a structurally successful response whose
`versions` array is empty is merged into the Session — at the concrete
pre-state `sampleState` (whose `coverLetters` list holds one entry) the
post-call `coverLetters` list does not keep its pre-call value. -/
theorem c3_counterexample :
    (IndexApp.handleGenerateCoverLetters (.ok ⟨[]⟩) IndexApp.sampleState).session.coverLetters
      ≠ IndexApp.sampleState.session.coverLetters := by
  simp [IndexApp.handleGenerateCoverLetters, IndexApp.sampleState, IndexApp.sampleSession]

/-- Claim C3 (amended): for resume-variant and interview-question
generation, a structurally successful response whose result array is empty
or missing is treated as a failure — no merge occurs, the corresponding
Session list keeps its pre-call value, the step is unchanged, and the same
error as an AI failure is surfaced. Cover-letter generation performs no
such validation: a successful response with an empty `versions` array is
merged, replacing `coverLetters` with the empty list and moving to the
cover-letter step. -/
theorem c3_empty_result_policy :
    (∀ s : IndexApp.AppState,
      (IndexApp.handleGenerateOptimizedResumes (.ok ⟨some []⟩) s).session.optimizedResumes
          = s.session.optimizedResumes ∧
      (IndexApp.handleGenerateOptimizedResumes (.ok ⟨none⟩) s).session.optimizedResumes
          = s.session.optimizedResumes ∧
      (IndexApp.handleGenerateOptimizedResumes (.ok ⟨some []⟩) s).session = s.session ∧
      (IndexApp.handleGenerateOptimizedResumes (.ok ⟨some []⟩) s).currentStep = s.currentStep) ∧
    (∀ s : IndexApp.AppState,
      (IndexApp.handleGenerateQuestions (.ok ⟨some []⟩) s).session.questions
          = s.session.questions ∧
      (IndexApp.handleGenerateQuestions (.ok ⟨none⟩) s).session.questions
          = s.session.questions ∧
      (IndexApp.handleGenerateQuestions (.ok ⟨some []⟩) s).session = s.session ∧
      (IndexApp.handleGenerateQuestions (.ok ⟨some []⟩) s).currentStep = s.currentStep) ∧
    (∀ s : IndexApp.AppState,
      (IndexApp.handleGenerateCoverLetters (.ok ⟨[]⟩) s).session.coverLetters = [] ∧
      (IndexApp.handleGenerateCoverLetters (.ok ⟨[]⟩) s).currentStep
          = IndexApp.Step.coverLetter) := by
  refine ⟨fun s => ⟨?_, ?_, ?_, ?_⟩, fun s => ⟨?_, ?_, ?_, ?_⟩, fun s => ⟨?_, ?_⟩⟩ <;>
    simp only [IndexApp.handleGenerateOptimizedResumes, IndexApp.handleGenerateQuestions,
      IndexApp.handleGenerateCoverLetters] <;>
    first
      | rfl
      | (split <;> rfl)

/-- Claim C4: a successful list-producing generation replaces the
corresponding Session list wholesale with the newly generated versions and
resets the paired selected index to 0 (for resume variants, success means
a present non-empty `versions` array and requires an existing analysis;
for cover letters every structurally successful response is merged). -/
theorem c4_success_replaces_list_resets_index :
    (∀ (s : IndexApp.AppState) (v : IndexApp.ResumeVersion) (vs : List IndexApp.ResumeVersion),
      s.session.analysis ≠ none →
      (IndexApp.handleGenerateOptimizedResumes (.ok ⟨some (v :: vs)⟩) s).session.optimizedResumes
          = v :: vs ∧
      (IndexApp.handleGenerateOptimizedResumes (.ok ⟨some (v :: vs)⟩) s).session.selectedResumeIndex
          = 0) ∧
    (∀ (s : IndexApp.AppState) (r : IndexApp.CoverLettersResult),
      (IndexApp.handleGenerateCoverLetters (.ok r) s).session.coverLetters = r.versions ∧
      (IndexApp.handleGenerateCoverLetters (.ok r) s).session.selectedCoverLetterIndex = 0) := by
  constructor
  · intro s v vs h
    have hred : IndexApp.handleGenerateOptimizedResumes (.ok ⟨some (v :: vs)⟩) s =
        { s with session := { s.session with optimizedResumes := v :: vs,
                                             selectedResumeIndex := 0 },
                 activeTab := IndexApp.Tab.optimized } := by
      simp only [IndexApp.handleGenerateOptimizedResumes, if_neg h]
    rw [hred]
    exact ⟨rfl, rfl⟩
  · intro s r
    exact ⟨rfl, rfl⟩

/-- Witness for C4 at a concrete state whose analysis exists: generating
one resume version replaces the list and resets the index, and a
successful cover-letter generation replaces the list and resets its
index. -/
theorem c4_witness :
    ((IndexApp.handleGenerateOptimizedResumes (.ok ⟨some [IndexApp.sampleResume]⟩)
        IndexApp.sampleState).session.optimizedResumes = [IndexApp.sampleResume] ∧
      (IndexApp.handleGenerateOptimizedResumes (.ok ⟨some [IndexApp.sampleResume]⟩)
        IndexApp.sampleState).session.selectedResumeIndex = 0) ∧
    ((IndexApp.handleGenerateCoverLetters (.ok ⟨[IndexApp.sampleCoverLetter]⟩)
        IndexApp.sampleState).session.coverLetters = [IndexApp.sampleCoverLetter] ∧
      (IndexApp.handleGenerateCoverLetters (.ok ⟨[IndexApp.sampleCoverLetter]⟩)
        IndexApp.sampleState).session.selectedCoverLetterIndex = 0) :=
  ⟨c4_success_replaces_list_resets_index.1 IndexApp.sampleState IndexApp.sampleResume []
      (by simp [IndexApp.sampleState, IndexApp.sampleSession]),
   c4_success_replaces_list_resets_index.2 IndexApp.sampleState ⟨[IndexApp.sampleCoverLetter]⟩⟩

/-- The `findIndex` + `splice(found, 1)` combination removes exactly the
first element satisfying the predicate. -/
theorem findIdx_splice_eq_eraseFirstMatch (p : α → Bool) (l : List α) :
    (if l.findIdx p < l.length then l.eraseIdx (l.findIdx p) else l) = eraseFirstMatch p l := by
  induction l with
  | nil => simp [eraseFirstMatch]
  | cons x xs ih =>
    by_cases hp : p x = true
    · simp [List.findIdx_cons, hp, eraseFirstMatch]
    · have hp' : p x = false := by simpa using hp
      have h1 : (x :: xs).findIdx p = xs.findIdx p + 1 := by
        simp [List.findIdx_cons, hp']
      have hu : eraseFirstMatch p (x :: xs) = x :: eraseFirstMatch p xs := by
        simp [eraseFirstMatch, hp']
      by_cases hlt : xs.findIdx p < xs.length
      · have h2 : xs.findIdx p + 1 < (x :: xs).length := by
          simp only [List.length_cons]
          omega
        rw [h1, if_pos h2, List.eraseIdx_cons_succ]
        rw [if_pos hlt] at ih
        rw [hu, ← ih]
      · have h2 : ¬ (xs.findIdx p + 1 < (x :: xs).length) := by
          simp only [List.length_cons]
          omega
        rw [h1, if_neg h2]
        rw [if_neg hlt] at ih
        rw [hu, ← ih]

/-- When at most one element of `l` satisfies `p`, none is left after
removing the first match. -/
theorem countP_eraseFirstMatch_eq_zero (p : α → Bool) (l : List α) (h : l.countP p ≤ 1) :
    (eraseFirstMatch p l).countP p = 0 := by
  induction l with
  | nil => simp [eraseFirstMatch]
  | cons x xs ih =>
    rw [List.countP_cons] at h
    by_cases hp : p x = true
    · rw [if_pos hp] at h
      have hxs : xs.countP p = 0 := by omega
      simp [eraseFirstMatch, hp, hxs]
    · have hp' : p x = false := by simpa using hp
      rw [if_neg hp] at h
      have hxs := ih h
      simp [eraseFirstMatch, hp', List.countP_cons, hxs]

/-- Claim C5: submitting an answer with its feedback for question-index
`i` — including a resubmission when a record for `i` already exists —
leaves exactly one record with `questionIndex = i` in the answer list, and
that record carries the submitted answer text and feedback. For the
index.tsx upsert (`findIndex` + `splice` + `push`) this holds under the
session invariant that at most one record for `i` exists before the call;
the part_000 upsert (`filter` + append) needs no precondition. -/
theorem c5_answer_upsert_unique :
    (∀ (answers : List IndexApp.AnswerRecord) (i : Nat) (ans : String) (fb : AnswerFeedback),
      (answers.countP fun a => a.questionIndex == i) ≤ 1 →
      ((IndexApp.upsertAnswer answers i ans fb).countP fun a => a.questionIndex == i) = 1 ∧
      ∀ r ∈ IndexApp.upsertAnswer answers i ans fb, r.questionIndex = i →
        r = { questionIndex := i, userAnswer := ans, feedback := some fb }) ∧
    (∀ (answers : List PartApp.WrittenAnswer) (i : Nat) (ans : String) (fb : AnswerFeedback),
      ((PartApp.upsertWrittenAnswer answers i ans fb).countP fun a => a.questionIndex == i) = 1 ∧
      ∀ r ∈ PartApp.upsertWrittenAnswer answers i ans fb, r.questionIndex = i →
        r = { questionIndex := i, answer := ans, feedback := some fb }) := by
  constructor
  · intro answers i ans fb h
    have hrw : IndexApp.upsertAnswer answers i ans fb =
        eraseFirstMatch (fun a => a.questionIndex == i) answers ++
          [{ questionIndex := i, userAnswer := ans, feedback := some fb }] := by
      simp only [IndexApp.upsertAnswer]
      rw [findIdx_splice_eq_eraseFirstMatch]
    have hzero := countP_eraseFirstMatch_eq_zero (fun a => a.questionIndex == i) answers h
    constructor
    · rw [hrw, List.countP_append, hzero]
      simp
    · intro r hr hri
      rw [hrw] at hr
      rcases List.mem_append.mp hr with hl | hr2
      · exfalso
        have hnp := List.countP_eq_zero.mp hzero r hl
        simp [hri] at hnp
      · simpa using hr2
  · intro answers i ans fb
    have hzero : ((answers.filter fun a => a.questionIndex != i).countP
        fun a => a.questionIndex == i) = 0 := by
      rw [List.countP_eq_zero]
      intro a ha
      have hne := (List.mem_filter.mp ha).2
      simp at hne ⊢
      exact hne
    constructor
    · simp only [PartApp.upsertWrittenAnswer]
      rw [List.countP_append, hzero]
      simp
    · intro r hr hri
      simp only [PartApp.upsertWrittenAnswer] at hr
      rcases List.mem_append.mp hr with hl | hr2
      · exfalso
        have hnp := List.countP_eq_zero.mp hzero r hl
        simp [hri] at hnp
      · simpa using hr2

/-- Witness for C5: submitting an answer for question 0 twice in a row
(starting from the empty answer list) leaves exactly one record with
question-index 0. -/
theorem c5_answer_upsert_witness :
    ((IndexApp.upsertAnswer (IndexApp.upsertAnswer [] 0 "first draft" sampleFeedback)
        0 "second draft" sampleFeedbackTwo).countP fun a => a.questionIndex == 0) = 1 :=
  (c5_answer_upsert_unique.1 (IndexApp.upsertAnswer [] 0 "first draft" sampleFeedback)
      0 "second draft" sampleFeedbackTwo (by decide)).1

/-- Claim C6 evaluated at a failing input (this records a code bug):
"Save Changes" copies only the array of references
(`[...session.optimizedResumes]`) and then assigns
`updatedResumes[selectedIndex].content = editingContent`, writing through
the `ResumeVersion` object shared with the previous Session value. At a
pre-state whose single artifact has content "old resume" (resp. "old
letter"), the pre-update Session's own reference list denotes the edited
content after the call — the pre-update Session value does not remain
structurally unchanged, contradicting the claim. -/
theorem c6_save_changes_mutates_shared_artifact :
    (IndexApp.derefContents ["old resume"] [0] = ["old resume"] ∧
      IndexApp.derefContents
          (IndexApp.saveResumeChanges ["old resume"] [0] 0 "edited resume").1 [0]
        = ["edited resume"]) ∧
    (IndexApp.derefContents ["old letter"] [0] = ["old letter"] ∧
      IndexApp.derefContents
          (IndexApp.saveCoverLetterChanges ["old letter"] [0] 0 "edited letter").1 [0]
        = ["edited letter"]) :=
  ⟨⟨rfl, rfl⟩, ⟨rfl, rfl⟩⟩

/-- Claim C7: after logging out of identity A and logging in as identity
B, the in-memory history equals exactly the list persisted under B's own
storage key `cc_history_<B.email>` — the empty list when that key is
absent — independently of A's previously loaded entries, and the login
leaves the store unchanged (index.tsx's pending-session save branch
cannot fire because logout reset the step to `landing`). Both variants. -/
theorem c7_history_identity_switch :
    (∀ (s : IndexApp.AppState) (store : IndexApp.HistStore) (b : User),
      (IndexApp.handleLogin b store (IndexApp.handleLogout s)).1.history
          = (store (histKey b.email)).getD [] ∧
      (IndexApp.handleLogin b store (IndexApp.handleLogout s)).2 = store) ∧
    (∀ (s : PartApp.AppState) (store : PartApp.HistStore) (b : User),
      (PartApp.handleLogin b store (PartApp.handleLogout s)).history
          = (store (histKey b.email)).getD []) := by
  constructor
  · intro s store b
    cases hs : store (histKey b.email) <;>
      simp [IndexApp.handleLogin, IndexApp.handleLogout, IndexApp.loadHistory, hs]
  · intro s store b
    cases hs : store (histKey b.email) <;>
      simp [PartApp.handleLogin, PartApp.handleLogout, PartApp.loadHistory, hs]

/-- Claim C9: with an empty job description, invoking "Analyze Fit" in
index.tsx raises the validation error "Please enter a job description",
makes no AI call (the returned flag is `false` and the outcome ignores
the AI oracle), leaves the Session unchanged and stays on the
job-description step; in part_000 the "Analyze Fit" button is disabled
for an empty job description, so the action cannot be invoked there. -/
theorem c9_empty_job_description_validation :
    (∀ (s : IndexApp.AppState) (res : Except String AnalysisResult),
      jsTrimString s.session.jobDescription = "" →
      s.currentStep = IndexApp.Step.jobDesc →
      (IndexApp.handleAnalyze res s).1.session = s.session ∧
      (IndexApp.handleAnalyze res s).1.currentStep = IndexApp.Step.jobDesc ∧
      (IndexApp.handleAnalyze res s).2 = false ∧
      (IndexApp.handleAnalyze res s).1.error = some "Please enter a job description") ∧
    (∀ s : PartApp.AppState, s.session.jobDescription = "" →
      PartApp.analyzeFitDisabled s = true) := by
  constructor
  · intro s res hjd hstep
    have hred : IndexApp.handleAnalyze res s =
        ({ s with error := some "Please enter a job description" }, false) := by
      simp only [IndexApp.handleAnalyze, if_pos hjd]
    rw [hred]
    exact ⟨rfl, hstep, rfl, rfl⟩
  · intro s h
    simp [PartApp.analyzeFitDisabled, h]

/-- Witness for C9: at a concrete state on the job-description step with
an empty job description, the handler preserves the session, makes no AI
call, and part_000's button is disabled at its initial state. -/
theorem c9_empty_job_description_witness :
    (IndexApp.handleAnalyze (.error "boom") IndexApp.emptyJobState).1.session
        = IndexApp.emptyJobState.session ∧
    (IndexApp.handleAnalyze (.error "boom") IndexApp.emptyJobState).2 = false ∧
    PartApp.analyzeFitDisabled PartApp.initialState = true :=
  ⟨(c9_empty_job_description_validation.1 IndexApp.emptyJobState (.error "boom")
      (by decide) rfl).1,
   (c9_empty_job_description_validation.1 IndexApp.emptyJobState (.error "boom")
      (by decide) rfl).2.2.1,
   c9_empty_job_description_validation.2 PartApp.initialState rfl⟩

/-- Folding `acc + f x` over a list starting from `init` is `init` plus
the sum of the mapped list. -/
theorem foldl_add_eq_sum_map (f : α → ℚ) (l : List α) (init : ℚ) :
    l.foldl (fun acc x => acc + f x) init = init + (l.map f).sum := by
  induction l generalizing init with
  | nil => simp
  | cons x xs ih => simp [List.foldl_cons, ih, add_assoc]

/-- Claim C10: the displayed Interview Score (summary step and history
entries use the same expression) equals round of (the sum of the feedback
scores of all answer records, a record without feedback scoring 0)
divided by max(1, number of records), times 10; for zero answer records
the score is 0, and the clamped divisor is positive for every list, so no
division by zero occurs. Arithmetic is modelled exactly on ℚ. -/
theorem c10_interview_score_formula :
    (∀ answers : List IndexApp.AnswerRecord,
      IndexApp.interviewScore answers = IndexApp.interviewScoreClaim answers) ∧
    IndexApp.interviewScore [] = 0 ∧
    (∀ answers : List IndexApp.AnswerRecord, (0 : ℚ) < max 1 (answers.length : ℚ)) := by
  refine ⟨?_, ?_, ?_⟩
  · intro answers
    unfold IndexApp.interviewScore IndexApp.interviewScoreClaim
    rw [foldl_add_eq_sum_map (fun a => match a.feedback with | some f => f.score | none => 0)
      answers 0, zero_add]
  · unfold IndexApp.interviewScore jsRound
    norm_num
  · intro answers
    exact lt_of_lt_of_le zero_lt_one (le_max_left 1 _)

/-- A list whose first and last characters are non-whitespace is left
unchanged by the JS trim. -/
theorem jsTrim_of_ends (c d : Char) (m : List Char) (hc : c.isWhitespace = false)
    (hd : d.isWhitespace = false) : jsTrim (c :: (m ++ [d])) = c :: (m ++ [d]) := by
  have hrev : (c :: (m ++ [d])).reverse = d :: (m.reverse ++ [c]) := by
    simp
  have hfront : (c :: (m ++ [d])).dropWhile Char.isWhitespace = c :: (m ++ [d]) := by
    simp [List.dropWhile_cons, hc]
  have hback : (c :: (m ++ [d])).reverse.dropWhile Char.isWhitespace
      = (c :: (m ++ [d])).reverse := by
    rw [hrev]
    simp [List.dropWhile_cons, hd]
  unfold jsTrim
  rw [hfront, hback, List.reverse_reverse]

/-- If a list with `l₂` appended is a Boolean prefix of `t`, so is the
list alone. -/
theorem isPrefixOf_append_left [BEq α] (l₁ l₂ t : List α)
    (h : (l₁ ++ l₂).isPrefixOf t = true) : l₁.isPrefixOf t = true := by
  induction l₁ generalizing t with
  | nil => simp [List.isPrefixOf]
  | cons a as ih =>
    cases t with
    | nil => simp [List.isPrefixOf] at h
    | cons b ts =>
      simp only [List.cons_append, List.isPrefixOf, Bool.and_eq_true] at h ⊢
      exact ⟨h.1, ih ts h.2⟩

/-- Cleanup of a response wrapped in a ```json fence recovers the body. -/
theorem cleanResponseText_fenceJson (b : List Char) :
    cleanResponseText (fenceJson ++ '\n' :: (b ++ fenceNl)) = b := by
  have hshape : fenceJson ++ '\n' :: (b ++ fenceNl)
      = backtickChar :: (([backtickChar, backtickChar, 'j', 's', 'o', 'n', '\n']
          ++ (b ++ ['\n', backtickChar, backtickChar])) ++ [backtickChar]) := by
    simp [fenceJson, fenceNl, fence]
  have htrim : jsTrim (fenceJson ++ '\n' :: (b ++ fenceNl))
      = fenceJson ++ '\n' :: (b ++ fenceNl) := by
    rw [hshape]
    exact jsTrim_of_ends _ _ _ (by decide) (by decide)
  have hpre : fenceJson.isPrefixOf (fenceJson ++ '\n' :: (b ++ fenceNl)) = true := by
    simp [fenceJson, fenceNl, fence, List.isPrefixOf]
  have h7 : fenceJson.length = 7 := by decide
  have hsuf : fenceNl.isSuffixOf (b ++ fenceNl) = true := by
    simp [fenceNl, fence, List.isSuffixOf, List.isPrefixOf]
  have hlen : (b ++ fenceNl).length - 4 = b.length := by
    simp [fenceNl, fence]
  unfold cleanResponseText
  rw [htrim]
  unfold cleanFencedText
  rw [hpre, if_pos rfl, List.drop_left' h7]
  show stripTrailingFence (b ++ fenceNl) = b
  unfold stripTrailingFence
  rw [hsuf, if_pos rfl, hlen]
  exact List.take_left' rfl

/-- Cleanup of a response wrapped in a bare triple-backtick fence recovers
the body. -/
theorem cleanResponseText_fenceBare (b : List Char) :
    cleanResponseText (fence ++ '\n' :: (b ++ fenceNl)) = b := by
  have hjn : ('j' == '\n') = false := by decide
  have hshape : fence ++ '\n' :: (b ++ fenceNl)
      = backtickChar :: (([backtickChar, backtickChar, '\n']
          ++ (b ++ ['\n', backtickChar, backtickChar])) ++ [backtickChar]) := by
    simp [fenceNl, fence]
  have htrim : jsTrim (fence ++ '\n' :: (b ++ fenceNl))
      = fence ++ '\n' :: (b ++ fenceNl) := by
    rw [hshape]
    exact jsTrim_of_ends _ _ _ (by decide) (by decide)
  have hnotjson : fenceJson.isPrefixOf (fence ++ '\n' :: (b ++ fenceNl)) = false := by
    simp [fenceJson, fenceNl, fence, List.isPrefixOf, hjn]
  have hpre : fence.isPrefixOf (fence ++ '\n' :: (b ++ fenceNl)) = true := by
    simp [fenceNl, fence, List.isPrefixOf]
  have h3 : fence.length = 3 := by decide
  have hsuf : fenceNl.isSuffixOf (b ++ fenceNl) = true := by
    simp [fenceNl, fence, List.isSuffixOf, List.isPrefixOf]
  have hlen : (b ++ fenceNl).length - 4 = b.length := by
    simp [fenceNl, fence]
  unfold cleanResponseText
  rw [htrim]
  unfold cleanFencedText
  rw [hnotjson, if_neg Bool.false_ne_true, hpre, if_pos rfl, List.drop_left' h3]
  show stripTrailingFence (b ++ fenceNl) = b
  unfold stripTrailingFence
  rw [hsuf, if_pos rfl, hlen]
  exact List.take_left' rfl

/-- A trimmed response that does not start with a fence marker is left
unchanged by the cleanup. -/
theorem cleanResponseText_nofence (t : List Char) (h1 : jsTrim t = t)
    (h2 : fence.isPrefixOf t = false) : cleanResponseText t = t := by
  have h3 : fenceJson.isPrefixOf t = false := by
    cases hq : fenceJson.isPrefixOf t with
    | false => rfl
    | true =>
      have hd : fenceJson = fence ++ ['j', 's', 'o', 'n'] := by decide
      rw [hd] at hq
      have hft := isPrefixOf_append_left fence ['j', 's', 'o', 'n'] t hq
      rw [h2] at hft
      exact absurd hft (by simp)
  unfold cleanResponseText
  rw [h1]
  unfold cleanFencedText
  rw [h3, if_neg Bool.false_ne_true, h2, if_neg Bool.false_ne_true]

/-- Claim C8: for a schema-bearing response that is a code-fence-wrapped
payload — a leading ```json (or bare ```) marker line and a trailing ```
marker around a body `b` — the client's fence-stripping cleanup recovers
exactly `b`, so any parse of the cleaned text equals the parse of `b`
directly; a trimmed response that carries no fence is passed to the
parser unchanged. -/
theorem c8_fence_stripping :
    (∀ b : List Char, cleanResponseText (fenceJson ++ '\n' :: (b ++ fenceNl)) = b) ∧
    (∀ b : List Char, cleanResponseText (fence ++ '\n' :: (b ++ fenceNl)) = b) ∧
    (∀ {α : Type} (parse : List Char → α) (b : List Char),
      parse (cleanResponseText (fenceJson ++ '\n' :: (b ++ fenceNl))) = parse b ∧
      parse (cleanResponseText (fence ++ '\n' :: (b ++ fenceNl))) = parse b) ∧
    (∀ t : List Char, jsTrim t = t → fence.isPrefixOf t = false →
      cleanResponseText t = t) := by
  refine ⟨cleanResponseText_fenceJson, cleanResponseText_fenceBare, ?_,
    cleanResponseText_nofence⟩
  intro α parse b
  exact ⟨congrArg parse (cleanResponseText_fenceJson b),
    congrArg parse (cleanResponseText_fenceBare b)⟩

/-- Witness for C8 at concrete inputs: the fenced payload `{}` is
recovered exactly, and the unfenced response `ok` is unchanged. -/
theorem c8_fence_stripping_witness :
    cleanResponseText (fenceJson ++ '\n' :: (['\x7b', '\x7d'] ++ fenceNl)) = ['\x7b', '\x7d'] ∧
    cleanResponseText ['o', 'k'] = ['o', 'k'] :=
  ⟨c8_fence_stripping.1 ['\x7b', '\x7d'],
   c8_fence_stripping.2.2.2 ['o', 'k'] (by decide) (by decide)⟩
